import Mathlib

/- Formal model of the Ouro intraday trading system, shallowly embedding
   the signal-classifier voting rules of ouro_lib.py (calcind) and the
   risk-sizing / session bookkeeping of ouro_trader.py.  Indicator values
   and prices are modelled as rationals; Python int() truncation is
   modelled explicitly. -/

namespace Ouro

/-- CCI vote, from ouro_lib.py calcind lines 180-182: the vote column starts
at 0, is set to 1 where CCI14 is at least 100, then set to -1 where CCI14 is
at most -100 (the two conditions are disjoint). -/
def ccivote (cci : ℚ) : ℤ :=
  let v : ℤ := 0
  let v := if cci ≥ 100 then 1 else v
  let v := if cci ≤ -100 then -1 else v
  v

/-- MACD-histogram vote at row i, from ouro_lib.py calcind lines 190-193.
Pandas shift(periods=-1) at row i yields the value at row i+1, and every
comparison with a missing (NaN) value is false, so a row with no successor
keeps the initial vote 0.  The final rule forcing rows with a zero histogram
to 0 is reproduced even though the earlier conditions already exclude it. -/
def macdvote (hist : List ℚ) (i : ℕ) : ℤ :=
  match hist[i]?, hist[i + 1]? with
  | some h, some hn =>
    let v : ℤ := 0
    let v := if h > 0 ∧ hn < h then 1 else v
    let v := if h < 0 ∧ hn > h then -1 else v
    if h = 0 then 0 else v
  | _, _ => 0

/-- Modelled from the spec: the MACD-histogram vote as the spec describes
it — compare the current histogram value against the next bar (look-ahead),
vote Buy (+1) when the histogram crosses upward through 0 (current below 0,
next above 0), Sell (-1) when it crosses downward, and leave the last bar
undefined (none) because it has no successor to compare against. -/
def specMacdVote (hist : List ℚ) (i : ℕ) : Option ℤ :=
  match hist[i]?, hist[i + 1]? with
  | some h, some hn =>
    some (if h < 0 ∧ 0 < hn then 1 else if 0 < h ∧ hn < 0 then -1 else 0)
  | _, _ => none

/-- Vote character, from ouro_lib.py calcind lines 244-254: chr(66 + vote),
so -1, 0, 1 map to the characters A, B, C. -/
def voteChar (v : ℤ) : Char :=
  Char.ofNat (66 + v).toNat

/-- Encode a vote vector as a string, one character per vote in order
(the concatenation a + b + ... + k of ouro_lib.py line 255). -/
def encode (votes : List ℤ) : String :=
  String.mk (votes.map voteChar)

/-- The eleven per-family votes of one classified row, in the fixed order
they are read at ouro_lib.py lines 244-254. -/
structure VoteVec where
  aroonvote : ℤ
  bopvote : ℤ
  ccivote : ℤ
  cmovote : ℤ
  macdvote : ℤ
  ppovote : ℤ
  rsivote : ℤ
  stochvote : ℤ
  stochrsivote : ℤ
  trixvote : ℤ
  adoscvote : ℤ

/-- The votes of a row as a list, in the fixed family order of
ouro_lib.py lines 244-254. -/
def voteList (v : VoteVec) : List ℤ :=
  [v.aroonvote, v.bopvote, v.ccivote, v.cmovote, v.macdvote, v.ppovote,
   v.rsivote, v.stochvote, v.stochrsivote, v.trixvote, v.adoscvote]

/-- STRATEGY_ID of a row, from ouro_lib.py lines 244-255: the eleven vote
characters concatenated in the fixed family order. -/
def strategyId (v : VoteVec) : String :=
  String.mk [voteChar v.aroonvote, voteChar v.bopvote, voteChar v.ccivote,
    voteChar v.cmovote, voteChar v.macdvote, voteChar v.ppovote,
    voteChar v.rsivote, voteChar v.stochvote, voteChar v.stochrsivote,
    voteChar v.trixvote, voteChar v.adoscvote]

/-- Modelled from the spec: decode is not present in the source; the spec
defines it per position by A = -1, B = 0, C = +1. -/
def decodeChar (c : Char) : ℤ :=
  if c = 'A' then -1 else if c = 'B' then 0 else if c = 'C' then 1 else 0

/-- Modelled from the spec: decode a strategy-id string back to its vote
vector, one character at a time. -/
def decode (s : String) : List ℤ :=
  s.data.map decodeChar

/-- Python int() truncation toward zero, used at ouro_trader.py line 170. -/
def pyInt (q : ℚ) : ℤ :=
  if 0 ≤ q then ⌊q⌋ else -⌊-q⌋

/-- Maximum risk ratio, ouro_trader.py line 73. -/
def maxriskratio : ℚ := 0.004

/-- The per-candidate inputs of the risk-sizing block of ouro_trader.py
lines 149-228: the inbound action fields, the close price of the previous
day, the strategy family average return, and the session cash figures. -/
structure RiskInputs where
  price : ℚ
  recenthigh : ℚ
  recentlow : ℚ
  yclose : ℚ
  family : String
  familyAvgRet : ℚ
  cash : ℚ
  tradecapital : ℚ
  bandwagon : ℚ

/-- Maximum trade risk, ouro_trader.py line 157. -/
def maxriskamt (i : RiskInputs) : ℚ :=
  i.cash * maxriskratio * i.bandwagon

/-- Share count before any rejection rule, ouro_trader.py line 170. -/
def ordershares0 (i : RiskInputs) : ℤ :=
  pyInt (i.tradecapital / i.price)

/-- Discounted family return, ouro_trader.py line 185. -/
def familyret (i : RiskInputs) : ℚ :=
  i.familyAvgRet * 0.8

/-- Baseline floor percentage, ouro_trader.py line 188. -/
def floorpct (i : RiskInputs) : ℚ :=
  familyret i * 0.5

/-- Baseline floor price, ouro_trader.py line 189. -/
def floorprice0 (i : RiskInputs) : ℚ :=
  i.price * (1 - floorpct i)

/-- Baseline ceiling price, ouro_trader.py line 192. -/
def ceilingprice0 (i : RiskInputs) : ℚ :=
  i.price * (1 + i.familyAvgRet)

/-- Ceiling price after the recent-high clamp of ouro_trader.py
lines 195-198, applied for every family other than Candlestick. -/
def ceilingprice1 (i : RiskInputs) : ℚ :=
  if i.family ≠ "Candlestick" ∧ ceilingprice0 i > i.recenthigh then
    i.recenthigh - 0.05
  else ceilingprice0 i

/-- Stop-loss rejection condition of ouro_trader.py lines 195 and 199:
for a non-Candlestick family, the proposed floor price lies above the
recent low. -/
def slHit (i : RiskInputs) : Prop :=
  i.family ≠ "Candlestick" ∧ floorprice0 i > i.recentlow

instance (i : RiskInputs) : Decidable (slHit i) := by
  unfold slHit; infer_instance

/-- Share count after the stop-loss rejection, ouro_trader.py line 201. -/
def ordershares1 (i : RiskInputs) : ℤ :=
  if slHit i then 0 else ordershares0 i

/-- Skip reason after the stop-loss rejection, ouro_trader.py
lines 181 and 200. -/
def skipreason1 (i : RiskInputs) : String :=
  if slHit i then "Proposed stop-loss price already hit today" else "Unknown"

/-- Floor price after the risk-widening adjustment of ouro_trader.py
lines 204-206, which uses the already-possibly-zeroed share count. -/
def floorprice1 (i : RiskInputs) : ℚ :=
  if i.price * (ordershares1 i : ℚ) * floorpct i > maxriskamt i then
    i.price - (ceilingprice1 i - i.price) * 0.4
  else floorprice0 i

/-- Amount risked on the trade, ouro_trader.py line 209. -/
def traderiskamt (i : RiskInputs) : ℚ :=
  (i.price - floorprice1 i) * (ordershares1 i : ℚ)

/-- Percentage risked on the trade, ouro_trader.py line 210. -/
def traderiskpct (i : RiskInputs) : ℚ :=
  (i.price - floorprice1 i) / i.price

/-- Buy limit price, ouro_trader.py line 213. -/
def buylimit (i : RiskInputs) : ℚ :=
  (ceilingprice1 i - i.price) * 0.05 + i.price

/-- Trade return, ouro_trader.py line 216. -/
def traderet (i : RiskInputs) : ℚ :=
  (ceilingprice1 i - buylimit i) / buylimit i

/-- Momentum-gate rejection condition, ouro_trader.py line 220: the move
since the previous close already reaches the trade return. -/
def momHit (i : RiskInputs) : Prop :=
  (i.price - i.yclose) / i.yclose ≥ traderet i

instance (i : RiskInputs) : Decidable (momHit i) := by
  unfold momHit; infer_instance

/-- Share count after the momentum gate, ouro_trader.py line 221. -/
def ordershares2 (i : RiskInputs) : ℤ :=
  if momHit i then 0 else ordershares1 i

/-- Skip reason after the momentum gate, ouro_trader.py line 222, which
overwrites any earlier reason unconditionally. -/
def skipreason2 (i : RiskInputs) : String :=
  if momHit i then "The potential return has already been met today."
  else skipreason1 i

/-- Risk-versus-reward rejection condition, ouro_trader.py line 225. -/
def rrHit (i : RiskInputs) : Prop :=
  traderet i - 0.005 ≤ traderiskpct i

instance (i : RiskInputs) : Decidable (rrHit i) := by
  unfold rrHit; infer_instance

/-- Final share count, ouro_trader.py line 227. -/
def ordersharesFinal (i : RiskInputs) : ℤ :=
  if rrHit i then 0 else ordershares2 i

/-- Final value of the skipreason variable after line 228 of
ouro_trader.py, again an unconditional overwrite. -/
def skipreason3 (i : RiskInputs) : String :=
  if rrHit i then "Risk outweighs reward" else skipreason2 i

/-- One row of the broker status table, the dictionary written at
ouro_trader.py lines 255-275, 284-304 and 318-338 (the wall-clock
DateTime field is omitted from the model). -/
structure StatusRec where
  Ticker : String
  Cash : ℚ
  TradeCapital : ℚ
  BuyPrice : ℚ
  BuyLimit : ℚ
  MaxRiskAmt : ℚ
  TradeRiskAmt : ℚ
  TradeRiskPct : ℚ
  PortfolioRiskPct : ℚ
  FamilyReturnPct : ℚ
  TradeReturnPct : ℚ
  OrderShares : ℤ
  RecentHigh : ℚ
  RecentLow : ℚ
  FloorPrice : ℚ
  CeilingPrice : ℚ
  Decision : String
  Reason : String

/-- The Alpaca account snapshot used at ouro_trader.py lines 107-109. -/
structure Account where
  cash : ℚ
  buying_power : ℚ
  multiplier : ℚ

/-- The mutable session state of ouro_trader.py: the bought and skip
lists (lines 76-77), the status dictionary (line 78), and the cash and
trade-capital figures fixed at lines 108-109. -/
structure SessionState where
  boughtlist : List String
  skiplist : List String
  status : List (String × StatusRec)
  cash : ℚ
  tradecapital : ℚ

/-- Initial session state: empty lists, cash derived from buying power
and multiplier minus the day-trading minimum (ouro_trader.py line 108),
trade capital a tenth of that (line 109).  The account cash field is
never read. -/
def initState (a : Account) : SessionState :=
  { boughtlist := [], skiplist := [], status := [],
    cash := a.buying_power / a.multiplier - 25001,
    tradecapital := (a.buying_power / a.multiplier - 25001) / 10 }

/-- One inbound candidate of one tick: the inbound action fields, the
previous close, the family average return looked up at line 185, the
order count fetched at line 161, the bandwagon discount chosen at
lines 139-147, and whether the broker accepts the bracket order. -/
structure TickEvent where
  stock : String
  price : ℚ
  recenthigh : ℚ
  recentlow : ℚ
  yclose : ℚ
  family : String
  familyAvgRet : ℚ
  ordercount : ℕ
  bandwagon : ℚ
  submitOk : Bool

/-- Assemble the risk inputs of one candidate from the session state and
the tick event. -/
def mkInputs (s : SessionState) (e : TickEvent) : RiskInputs :=
  { price := e.price, recenthigh := e.recenthigh, recentlow := e.recentlow,
    yclose := e.yclose, family := e.family, familyAvgRet := e.familyAvgRet,
    cash := s.cash, tradecapital := s.tradecapital, bandwagon := e.bandwagon }

/-- Python dictionary assignment status[stock] = record. -/
def upsert (st : List (String × StatusRec)) (k : String) (v : StatusRec) :
    List (String × StatusRec) :=
  (k, v) :: st.filter (fun p => p.1 != k)

/-- Build the status record written for a candidate, with the given
decision and reason strings (ouro_trader.py lines 255-275 and twins). -/
def mkStatus (s : SessionState) (e : TickEvent) (dec reason : String) :
    StatusRec :=
  let i := mkInputs s e
  { Ticker := e.stock, Cash := s.cash, TradeCapital := s.tradecapital,
    BuyPrice := e.price, BuyLimit := buylimit i, MaxRiskAmt := maxriskamt i,
    TradeRiskAmt := traderiskamt i, TradeRiskPct := traderiskpct i,
    PortfolioRiskPct := traderiskamt i / s.cash,
    FamilyReturnPct := familyret i, TradeReturnPct := traderet i,
    OrderShares := ordersharesFinal i, RecentHigh := e.recenthigh,
    RecentLow := e.recentlow, FloorPrice := floorprice1 i,
    CeilingPrice := ceilingprice1 i, Decision := dec, Reason := reason }

/-- Skip-reason defaulting, ouro_trader.py lines 307-308: the
too-expensive default fires only when the share count is exactly zero and
no rejection rule set a reason. -/
def skipreason4 (s : SessionState) (e : TickEvent) : String :=
  if ordersharesFinal (mkInputs s e) = 0 ∧
      skipreason3 (mkInputs s e) = "Unknown" then
    "Stock is too expensive or unable to buy shares."
  else skipreason3 (mkInputs s e)

/-- Skip-reason defaulting, ouro_trader.py lines 309-310. -/
def skipreason5 (s : SessionState) (e : TickEvent) : String :=
  if e.stock ∈ s.boughtlist ∧ skipreason4 s e = "Unknown" then
    "Stock in bought list."
  else skipreason4 s e

/-- Skip-reason defaulting, ouro_trader.py lines 311-312.  The ordercount
tested here is the same count already known to be below ten when the skip
branch runs. -/
def skipDefaulted (s : SessionState) (e : TickEvent) : String :=
  if e.ordercount ≥ 10 ∧ skipreason5 s e = "Unknown" then
    "Too many existing positions"
  else skipreason5 s e

/-- Process one inbound candidate, ouro_trader.py lines 149-338: fresh
stocks with fewer than ten open positions are priced; a positive final
share count leads to an order submission whose success appends to the
bought list and whose failure changes neither list; a non-positive share
count appends to the skip list with the defaulted reason.  When the
order count is ten or more the entire block is skipped and the state is
returned unchanged. -/
def step (s : SessionState) (e : TickEvent) : SessionState :=
  if e.stock ∉ s.boughtlist ∧ e.stock ∉ s.skiplist then
    if e.ordercount < 10 then
      if ordersharesFinal (mkInputs s e) > 0 then
        if e.submitOk then
          { s with boughtlist := s.boughtlist ++ [e.stock],
                   status := upsert s.status e.stock
                     (mkStatus s e "buy" e.family) }
        else
          if e.stock ∉ s.skiplist then
            { s with status := upsert s.status e.stock
                       (mkStatus s e "skip" (skipreason3 (mkInputs s e) ++
                         " - buy order failed; eligible for retry.")) }
          else s
      else
        if e.stock ∉ s.skiplist then
          { s with skiplist := s.skiplist ++ [e.stock],
                   status := upsert s.status e.stock
                     (mkStatus s e "skip" (skipDefaulted s e ++
                       "; not eligible for retry.")) }
        else s
    else s
  else s

/-- Look up the latest status record of a ticker. -/
def lookupStatus (s : SessionState) (t : String) : Option StatusRec :=
  (s.status.find? (fun p => p.1 == t)).map (fun p => p.2)

/-- Session states reachable from the initial state by processing any
sequence of inbound candidates. -/
inductive Reachable (a : Account) : SessionState → Prop where
  | init : Reachable a (initState a)
  | tick : ∀ (s : SessionState) (e : TickEvent),
      Reachable a s → Reachable a (Ouro.step s e)

/-- Contents of the broker-buyskip.json snapshot file. -/
inductive SnapshotContent where
  | buySkipRecord : List String → List String → SnapshotContent
  | statusRecord : List (String × StatusRec) → SnapshotContent

/-- The snapshot write of ouro_trader.py lines 351-357: a record holding
the bought and skip lists is built into tmp, after which tmp is
immediately reassigned to the serialized status dictionary, and that
reassigned value is what the file receives. -/
def writeBuySkipSnapshot (boughtlist skiplist : List String)
    (status : List (String × StatusRec)) : SnapshotContent :=
  let tmp := SnapshotContent.buySkipRecord boughtlist skiplist
  let tmp := SnapshotContent.statusRecord status
  tmp

/-- The concrete risk-engine input of the worked example in the spec. -/
def c1In : RiskInputs :=
  { price := 100, recenthigh := 105, recentlow := 95, yclose := 98,
    family := "Momentum", familyAvgRet := 0.02, cash := 50000,
    tradecapital := 5000, bandwagon := 1 }

/-- A fresh session state carrying the cash figures of the worked
example. -/
def c4State : SessionState :=
  { boughtlist := [], skiplist := [], status := [],
    cash := 50000, tradecapital := 5000 }

/-- The worked example as a tick event for a fresh ticker. -/
def c4Event : TickEvent :=
  { stock := "XYZ", price := 100, recenthigh := 105, recentlow := 95,
    yclose := 98, family := "Momentum", familyAvgRet := 0.02,
    ordercount := 3, bandwagon := 1, submitOk := false }

/-- An account whose buying power over multiplier, less the day-trading
minimum, yields the cash figure of the worked example. -/
def c4Account : Account :=
  { cash := 0, buying_power := 75001, multiplier := 1 }

/-- The worked example with the order count raised to ten. -/
def c3Event : TickEvent :=
  { c4Event with ordercount := 10 }

/-- A sample vote vector exercising every vote value. -/
def c9Votes : VoteVec :=
  { aroonvote := -1, bopvote := 0, ccivote := 1, cmovote := -1,
    macdvote := 0, ppovote := 1, rsivote := -1, stochvote := 0,
    stochrsivote := 1, trixvote := -1, adoscvote := 0 }

/- Helper lemmas about the session step function. -/

lemma step_stale (s : SessionState) (e : TickEvent)
    (h : ¬(e.stock ∉ s.boughtlist ∧ e.stock ∉ s.skiplist)) : step s e = s := by
  unfold step
  rw [if_neg h]

lemma step_blocked (s : SessionState) (e : TickEvent)
    (h : 10 ≤ e.ordercount) : step s e = s := by
  unfold step
  split_ifs <;> first | rfl | omega

lemma step_buy (s : SessionState) (e : TickEvent)
    (hfresh : e.stock ∉ s.boughtlist ∧ e.stock ∉ s.skiplist)
    (hoc : e.ordercount < 10)
    (hsh : 0 < ordersharesFinal (mkInputs s e))
    (hsub : e.submitOk = true) :
    step s e = { s with boughtlist := s.boughtlist ++ [e.stock],
                        status := upsert s.status e.stock
                          (mkStatus s e "buy" e.family) } := by
  unfold step
  rw [if_pos hfresh, if_pos hoc, if_pos hsh, if_pos hsub]

lemma step_failed (s : SessionState) (e : TickEvent)
    (hfresh : e.stock ∉ s.boughtlist ∧ e.stock ∉ s.skiplist)
    (hoc : e.ordercount < 10)
    (hsh : 0 < ordersharesFinal (mkInputs s e))
    (hsub : e.submitOk = false) :
    step s e = { s with status := upsert s.status e.stock
                          (mkStatus s e "skip" (skipreason3 (mkInputs s e) ++
                            " - buy order failed; eligible for retry.")) } := by
  unfold step
  rw [if_pos hfresh, if_pos hoc, if_pos hsh, if_neg (by simp [hsub]),
    if_pos hfresh.2]

lemma step_skip (s : SessionState) (e : TickEvent)
    (hfresh : e.stock ∉ s.boughtlist ∧ e.stock ∉ s.skiplist)
    (hoc : e.ordercount < 10)
    (hsh : ordersharesFinal (mkInputs s e) ≤ 0) :
    step s e = { s with skiplist := s.skiplist ++ [e.stock],
                        status := upsert s.status e.stock
                          (mkStatus s e "skip" (skipDefaulted s e ++
                            "; not eligible for retry.")) } := by
  unfold step
  rw [if_pos hfresh, if_pos hoc, if_neg (by omega), if_pos hfresh.2]

lemma upsert_mem {st : List (String × StatusRec)} {k : String}
    {v : StatusRec} {p : String × StatusRec} (hp : p ∈ upsert st k v) :
    p = (k, v) ∨ p ∈ st := by
  rcases List.mem_cons.mp hp with h | h
  · exact Or.inl h
  · exact Or.inr (List.mem_filter.mp h).1

lemma lookupStatus_mk (bl sl : List String) (st : List (String × StatusRec))
    (c tc : ℚ) (k : String) (v : StatusRec) :
    lookupStatus ⟨bl, sl, upsert st k v, c, tc⟩ k = some v := by
  simp [lookupStatus, upsert, List.find?_cons_of_pos]

lemma mkStatus_Cash (s : SessionState) (e : TickEvent) (dec reason : String) :
    (mkStatus s e dec reason).Cash = s.cash := rfl

lemma mkStatus_TradeCapital (s : SessionState) (e : TickEvent)
    (dec reason : String) :
    (mkStatus s e dec reason).TradeCapital = s.tradecapital := rfl

/-- The session invariant: the cash figures never change from their
initial values, the skip list never holds a ticker twice, the bought and
skip lists stay disjoint, and every status row records the session cash
figures. -/
lemma reachable_invariant (a : Account) (s : SessionState)
    (hs : Reachable a s) :
    s.cash = a.buying_power / a.multiplier - 25001 ∧
    s.tradecapital = (a.buying_power / a.multiplier - 25001) / 10 ∧
    s.skiplist.Nodup ∧
    (∀ t, t ∈ s.boughtlist → t ∉ s.skiplist) ∧
    (∀ p ∈ s.status, p.2.Cash = s.cash ∧ p.2.TradeCapital = s.tradecapital) := by
  induction hs with
  | init =>
    refine ⟨rfl, rfl, List.nodup_nil, ?_, ?_⟩ <;> simp [initState]
  | tick s e hs ih =>
    obtain ⟨hc, htc, hsn, hdisj, hst⟩ := ih
    by_cases h1 : e.stock ∉ s.boughtlist ∧ e.stock ∉ s.skiplist
    · by_cases h2 : e.ordercount < 10
      · by_cases h3 : 0 < ordersharesFinal (mkInputs s e)
        · cases hsub : e.submitOk with
          | true =>
            rw [step_buy s e h1 h2 h3 hsub]
            refine ⟨hc, htc, hsn, ?_, ?_⟩
            · intro t ht
              rcases List.mem_append.mp ht with ht | ht
              · exact hdisj t ht
              · rw [List.mem_singleton.mp ht]; exact h1.2
            · intro p hp
              rcases upsert_mem hp with rfl | hp
              · exact ⟨rfl, rfl⟩
              · exact hst p hp
          | false =>
            rw [step_failed s e h1 h2 h3 hsub]
            refine ⟨hc, htc, hsn, hdisj, ?_⟩
            intro p hp
            rcases upsert_mem hp with rfl | hp
            · exact ⟨rfl, rfl⟩
            · exact hst p hp
        · rw [step_skip s e h1 h2 (by omega)]
          refine ⟨hc, htc, ?_, ?_, ?_⟩
          · exact List.Nodup.append hsn (List.nodup_singleton _)
              (by simp [List.disjoint_singleton]; exact h1.2)
          · intro t ht
            simp only [List.mem_append, List.mem_singleton]
            rintro (hsk | rfl)
            · exact hdisj t ht hsk
            · exact h1.1 ht
          · intro p hp
            rcases upsert_mem hp with rfl | hp
            · exact ⟨rfl, rfl⟩
            · exact hst p hp
      · rw [step_blocked s e (by omega)]
        exact ⟨hc, htc, hsn, hdisj, hst⟩
    · rw [step_stale s e h1]
      exact ⟨hc, htc, hsn, hdisj, hst⟩

/-- The skip reason finally reported is the last rejection rule that
triggered in step order, with the too-expensive default when the share
count reached the skip branch still zero with no rule triggered. -/
lemma skipDefaulted_eq (s : SessionState) (e : TickEvent)
    (hsh : ordersharesFinal (mkInputs s e) ≤ 0)
    (h0 : 0 ≤ ordershares0 (mkInputs s e)) :
    skipDefaulted s e =
      (if rrHit (mkInputs s e) then "Risk outweighs reward"
       else if momHit (mkInputs s e) then
         "The potential return has already been met today."
       else if slHit (mkInputs s e) then
         "Proposed stop-loss price already hit today"
       else "Stock is too expensive or unable to buy shares.") := by
  unfold skipDefaulted skipreason5 skipreason4 skipreason3 skipreason2
    skipreason1
  by_cases hr : rrHit (mkInputs s e)
  · simp [hr]
  · by_cases hm : momHit (mkInputs s e)
    · simp [hr, hm]
    · by_cases hsl : slHit (mkInputs s e)
      · simp [hr, hm, hsl]
      · have hz : ordersharesFinal (mkInputs s e) = 0 := by
          have heq : ordersharesFinal (mkInputs s e) =
              ordershares0 (mkInputs s e) := by
            simp [ordersharesFinal, ordershares2, ordershares1, hr, hm, hsl]
          omega
        simp [hr, hm, hsl, hz]

/-- Full evaluation of the risk-sizing block at the worked example of the
spec: the stop-loss rejection fires at floor price 99.2 above the recent
low 95, zeroing the share count, and the momentum gate then fires as well
and overwrites the reason. -/
lemma c1_compute :
    familyret c1In = 0.016 ∧ floorpct c1In = 0.008 ∧
    floorprice0 c1In = 99.2 ∧ slHit c1In ∧
    ceilingprice1 c1In = 102 ∧ ordershares0 c1In = 50 ∧
    ordershares1 c1In = 0 ∧ floorprice1 c1In = 99.2 ∧
    maxriskamt c1In = 200 ∧
    traderiskamt c1In = 0 ∧ traderiskpct c1In = 0.008 ∧
    buylimit c1In = 100.1 ∧ traderet c1In = 19 / 1001 ∧
    momHit c1In ∧ ¬rrHit c1In ∧ ordersharesFinal c1In = 0 ∧
    skipreason3 c1In = "The potential return has already been met today." := by
  norm_num [c1In, familyret, floorpct, floorprice0, ceilingprice0,
    ceilingprice1, slHit, ordershares0, pyInt, ordershares1, floorprice1,
    maxriskamt, maxriskratio, traderiskamt, traderiskpct, buylimit,
    traderet, momHit, rrHit, ordershares2, ordersharesFinal, skipreason3,
    skipreason2, skipreason1]
  decide

lemma c1_osFinal : ordersharesFinal c1In = 0 := by
  obtain ⟨-, -, -, -, -, -, -, -, -, -, -, -, -, -, -, h, -⟩ := c1_compute
  exact h

lemma c1_os0 : ordershares0 c1In = 50 := by
  obtain ⟨-, -, -, -, -, h, -⟩ := c1_compute
  exact h

lemma c1_momHit : momHit c1In := by
  obtain ⟨-, -, -, -, -, -, -, -, -, -, -, -, -, h, -⟩ := c1_compute
  exact h

lemma c1_not_rrHit : ¬rrHit c1In := by
  obtain ⟨-, -, -, -, -, -, -, -, -, -, -, -, -, -, h, -⟩ := c1_compute
  exact h

lemma mkInputs_c4 : mkInputs c4State c4Event = c1In := rfl

lemma init_c4 : initState c4Account = c4State := by
  norm_num [initState, c4Account, c4State, SessionState.mk.injEq]

lemma reach_c4 : Reachable c4Account c4State := init_c4 ▸ Reachable.init

/- Claim theorems. -/

/-- C1 counterexample: at the worked example of the spec the stop-loss
rejection does fire (the floor price 99.2 exceeds the recent low 95), and
the trade risk amount comes out 0, not the claimed 40, because the share
count is already zero when the risk amount is computed. -/
theorem c1_counterexample : slHit c1In ∧ traderiskamt c1In ≠ 40 := by
  obtain ⟨-, -, -, hsl, -, -, -, -, -, hta, -⟩ := c1_compute
  refine ⟨hsl, ?_⟩
  rw [hta]
  norm_num

/-- C1 (amended): the full trace of the risk-sizing block at the worked
example — familyReturn 0.016, floorPct 0.008, floorPrice 99.2 which fires
the stop-loss rejection and zeroes the 50 shares, ceiling 102 unclamped,
no floor widening (0 risk against a 200 cap), tradeRiskAmt 0,
tradeRiskPct 0.008, buyLimit 100.1, tradeReturn 19/1001, momentum gate
fires as well and leaves the final reason, risk-reward gate does not
fire, and the decision is Skip with zero shares. -/
theorem c1_risk_trace :
    familyret c1In = 0.016 ∧ floorpct c1In = 0.008 ∧
    floorprice0 c1In = 99.2 ∧ slHit c1In ∧
    ceilingprice1 c1In = 102 ∧ ordershares0 c1In = 50 ∧
    ordershares1 c1In = 0 ∧ floorprice1 c1In = 99.2 ∧
    maxriskamt c1In = 200 ∧
    traderiskamt c1In = 0 ∧ traderiskpct c1In = 0.008 ∧
    buylimit c1In = 100.1 ∧ traderet c1In = 19 / 1001 ∧
    momHit c1In ∧ ¬rrHit c1In ∧ ordersharesFinal c1In = 0 ∧
    skipreason3 c1In = "The potential return has already been met today." :=
  c1_compute

/-- C2 counterexample: at CCI = 150 the code votes +1 (Buy) although 150
does not satisfy the Buy condition CCI at most -100 stated by the
claim. -/
theorem c2_counterexample : ccivote 150 = 1 ∧ ¬((150 : ℚ) ≤ -100) := by
  constructor
  · norm_num [ccivote]
  · norm_num

/-- C2 (amended): the CCI vote is +1 exactly when CCI14 is at least +100
and -1 exactly when CCI14 is at most -100 — the opposite pairing of vote
direction and threshold from the one the claim states. -/
theorem c2_ccivote_characterization (c : ℚ) :
    (ccivote c = 1 ↔ 100 ≤ c) ∧ (ccivote c = -1 ↔ c ≤ -100) := by
  unfold ccivote
  by_cases h2 : c ≤ -100
  · have h1 : ¬(c ≥ 100) := by linarith
    simp [h1, h2]
  · by_cases h1 : c ≥ 100 <;> simp [h1, h2]

/-- C3: with ten or more open positions the loop body leaves the session
state entirely unchanged — no skip decision, no status record — and the
reason string of line 311 can never be the defaulted skip reason, because
the skip branch only runs with fewer than ten positions. -/
theorem c3_position_gate (s : SessionState) (e : TickEvent) :
    (10 ≤ e.ordercount → step s e = s) ∧
    (e.ordercount < 10 →
      skipDefaulted s e ≠ "Too many existing positions") := by
  constructor
  · exact step_blocked s e
  · intro hoc heq
    unfold skipDefaulted at heq
    split_ifs at heq with hcond
    · exact absurd hcond.1 (by omega)
    · unfold skipreason5 at heq
      split_ifs at heq with h5
      · exact absurd heq (by decide)
      · unfold skipreason4 at heq
        split_ifs at heq with h4
        · exact absurd heq (by decide)
        · unfold skipreason3 skipreason2 skipreason1 at heq
          split_ifs at heq <;> exact absurd heq (by decide)

theorem c3_witness :
    step c4State c3Event = c4State ∧
    skipDefaulted c4State c4Event ≠ "Too many existing positions" :=
  ⟨(c3_position_gate c4State c3Event).1 (by decide),
   (c3_position_gate c4State c4Event).2 (by decide)⟩

/-- C4 counterexample: at the worked example both the stop-loss rejection
(step 5) and the momentum gate (step 11) fire, yet the reason reported
with the skip decision is the momentum reason — the last-triggered one,
not the first-triggered one the claim states. -/
theorem c4_counterexample :
    slHit (mkInputs c4State c4Event) ∧
    (lookupStatus (step c4State c4Event) "XYZ").map (fun r => r.Reason) =
      some ("The potential return has already been met today." ++
        "; not eligible for retry.") := by
  obtain ⟨-, -, -, hsl, -, -, -, -, -, -, -, -, -, hmom, hrr, hosF, -⟩ :=
    c1_compute
  refine ⟨mkInputs_c4 ▸ hsl, ?_⟩
  have hsh : ordersharesFinal (mkInputs c4State c4Event) ≤ 0 := by
    rw [mkInputs_c4]
    exact le_of_eq hosF
  have hsd : skipDefaulted c4State c4Event =
      "The potential return has already been met today." := by
    rw [skipDefaulted_eq c4State c4Event hsh
      (by rw [mkInputs_c4, c1_os0]; norm_num), mkInputs_c4]
    rw [if_neg hrr, if_pos hmom]
  rw [step_skip c4State c4Event ⟨by simp [c4State], by simp [c4State]⟩
    (by decide) hsh]
  simp only [show c4Event.stock = "XYZ" from rfl, lookupStatus_mk,
    Option.map_some']
  simp [mkStatus, hsd]

/-- C4 (amended): whenever the skip branch records a decision, the reason
reported is the LAST-triggered rejection rule in step order — risk
outweighs reward, else the momentum gate, else the stop-loss rejection —
defaulting to the too-expensive reason when no rule triggered, with the
retry-ineligibility suffix appended. -/
theorem c4_last_reason_reported (s : SessionState) (e : TickEvent)
    (hfresh : e.stock ∉ s.boughtlist ∧ e.stock ∉ s.skiplist)
    (hoc : e.ordercount < 10)
    (hsh : ordersharesFinal (mkInputs s e) ≤ 0)
    (h0 : 0 ≤ ordershares0 (mkInputs s e)) :
    lookupStatus (step s e) e.stock = some (mkStatus s e "skip"
      ((if rrHit (mkInputs s e) then "Risk outweighs reward"
        else if momHit (mkInputs s e) then
          "The potential return has already been met today."
        else if slHit (mkInputs s e) then
          "Proposed stop-loss price already hit today"
        else "Stock is too expensive or unable to buy shares.") ++
       "; not eligible for retry.")) := by
  rw [step_skip s e hfresh hoc hsh, ← skipDefaulted_eq s e hsh h0]
  exact lookupStatus_mk _ _ _ _ _ _ _

theorem c4_witness :
    lookupStatus (step c4State c4Event) "XYZ" =
      some (mkStatus c4State c4Event "skip"
        ((if rrHit (mkInputs c4State c4Event) then "Risk outweighs reward"
          else if momHit (mkInputs c4State c4Event) then
            "The potential return has already been met today."
          else if slHit (mkInputs c4State c4Event) then
            "Proposed stop-loss price already hit today"
          else "Stock is too expensive or unable to buy shares.") ++
         "; not eligible for retry.")) :=
  c4_last_reason_reported c4State c4Event
    ⟨by simp [c4State], by simp [c4State]⟩ (by decide)
    (by rw [mkInputs_c4, c1_osFinal])
    (by rw [mkInputs_c4, c1_os0]; norm_num)

/-- C5 counterexample: on the histogram [-1, 1] bar 0 crosses upward
through 0, yet the code votes -1 (Sell) where the claim says Buy; and on
the last bar the code votes the defined value 0 where the claim says
undefined. -/
theorem c5_counterexample :
    macdvote [-1, 1] 0 = -1 ∧ specMacdVote [-1, 1] 0 = some 1 ∧
    macdvote [-1, 1] 1 = 0 ∧ specMacdVote [-1, 1] 1 = none := by
  refine ⟨?_, ?_, ?_, ?_⟩ <;> norm_num [macdvote, specMacdVote]


/-- C5 (amended): the MACD vote does compare bar i against bar i+1
(look-ahead), but votes +1 exactly when the histogram is positive and the
next value is lower, -1 exactly when it is negative and the next value is
higher — no zero-crossing is required — and a bar with no successor gets
the defined neutral vote 0. -/
theorem c5_macdvote_characterization (hist : List ℚ) (i : ℕ) :
    (macdvote hist i = 1 ↔ ∃ h hn, hist[i]? = some h ∧
      hist[i + 1]? = some hn ∧ 0 < h ∧ hn < h) ∧
    (macdvote hist i = -1 ↔ ∃ h hn, hist[i]? = some h ∧
      hist[i + 1]? = some hn ∧ h < 0 ∧ h < hn) ∧
    (hist[i + 1]? = none → macdvote hist i = 0) := by
  rcases e1 : hist[i]? with _ | h
  · rcases e2 : hist[i + 1]? with _ | hn <;>
    · have hv0 : macdvote hist i = 0 := by simp [macdvote, e1, e2]
      refine ⟨⟨fun hval => absurd (hv0 ▸ hval) (by norm_num), ?_⟩,
        ⟨fun hval => absurd (hv0 ▸ hval) (by norm_num), ?_⟩, fun _ => hv0⟩
      · rintro ⟨h', hn', hh', -, -, -⟩
        exact absurd hh' (by simp)
      · rintro ⟨h', hn', hh', -, -, -⟩
        exact absurd hh' (by simp)
  · rcases e2 : hist[i + 1]? with _ | hn
    · have hv0 : macdvote hist i = 0 := by simp [macdvote, e1, e2]
      refine ⟨⟨fun hval => absurd (hv0 ▸ hval) (by norm_num), ?_⟩,
        ⟨fun hval => absurd (hv0 ▸ hval) (by norm_num), ?_⟩, fun _ => hv0⟩
      · rintro ⟨h', hn', -, hhn', -, -⟩
        exact absurd hhn' (by simp)
      · rintro ⟨h', hn', -, hhn', -, -⟩
        exact absurd hhn' (by simp)
    · have hv : macdvote hist i =
          if h = 0 then 0
          else if h < 0 ∧ hn > h then -1
          else if h > 0 ∧ hn < h then 1 else 0 := by
        simp only [macdvote, e1, e2]
      refine ⟨⟨?_, ?_⟩, ⟨?_, ?_⟩, ?_⟩
      · intro hval
        rw [hv] at hval
        split_ifs at hval with h0 hm hp <;>
          first
            | exact ⟨h, hn, rfl, rfl, hp.1, hp.2⟩
            | exact absurd hval (by norm_num)
      · rintro ⟨h', hn', hh', hhn', hpos, hlt⟩
        obtain rfl := Option.some.inj hh'
        obtain rfl := Option.some.inj hhn'
        have h0 : ¬(h = 0) := fun h0 => absurd hpos (by rw [h0]; exact lt_irrefl 0)
        have hm : ¬(h < 0 ∧ hn > h) := fun hm => absurd hpos (by linarith [hm.1])
        rw [hv, if_neg h0, if_neg hm, if_pos ⟨hpos, hlt⟩]
      · intro hval
        rw [hv] at hval
        split_ifs at hval with h0 hm hp <;>
          first
            | exact ⟨h, hn, rfl, rfl, hm.1, hm.2⟩
            | exact absurd hval (by norm_num)
      · rintro ⟨h', hn', hh', hhn', hneg, hgt⟩
        obtain rfl := Option.some.inj hh'
        obtain rfl := Option.some.inj hhn'
        have h0 : ¬(h = 0) := fun h0 => absurd hneg (by rw [h0]; exact lt_irrefl 0)
        rw [hv, if_neg h0, if_pos ⟨hneg, hgt⟩]
      · intro hnone
        exact absurd hnone (by simp)

theorem c5_witness : macdvote [2, 1] 0 = 1 :=
  (c5_macdvote_characterization [2, 1] 0).1.mpr
    ⟨2, 1, rfl, rfl, by norm_num, by norm_num⟩

/-- C6: the snapshot file receives the serialized status dictionary, not
the bought/skip record — the record built first into tmp is discarded by
the immediate reassignment at ouro_trader.py line 356. -/
theorem c6_snapshot_contents (boughtlist skiplist : List String)
    (status : List (String × StatusRec)) :
    writeBuySkipSnapshot boughtlist skiplist status =
      SnapshotContent.statusRecord status := rfl

/-- C7: a failed bracket-order submission changes neither the bought list
nor the skip list, leaving the ticker retry-eligible; a skip decision on a
fresh ticker appends it to the skip list, where it appears exactly once;
and in every reachable state the skip list never holds a ticker twice. -/
theorem c7_retry_and_skip_once (a : Account) (s : SessionState)
    (e : TickEvent) (hs : Reachable a s)
    (hfresh : e.stock ∉ s.boughtlist ∧ e.stock ∉ s.skiplist)
    (hoc : e.ordercount < 10) :
    (0 < ordersharesFinal (mkInputs s e) → e.submitOk = false →
      (step s e).boughtlist = s.boughtlist ∧
      (step s e).skiplist = s.skiplist) ∧
    (ordersharesFinal (mkInputs s e) ≤ 0 →
      (step s e).skiplist = s.skiplist ++ [e.stock] ∧
      ((step s e).skiplist).count e.stock = 1) ∧
    ((step s e).skiplist).Nodup := by
  obtain ⟨-, -, hsn, -, -⟩ := reachable_invariant a s hs
  refine ⟨?_, ?_, ?_⟩
  · intro hsh hsub
    rw [step_failed s e hfresh hoc hsh hsub]
    exact ⟨rfl, rfl⟩
  · intro hsh
    rw [step_skip s e hfresh hoc hsh]
    refine ⟨rfl, ?_⟩
    have hzero : s.skiplist.count e.stock = 0 :=
      List.count_eq_zero_of_not_mem hfresh.2
    simp [List.count_append, hzero]
  · by_cases hsh : 0 < ordersharesFinal (mkInputs s e)
    · cases hsub : e.submitOk with
      | false => rw [step_failed s e hfresh hoc hsh hsub]; exact hsn
      | true => rw [step_buy s e hfresh hoc hsh hsub]; exact hsn
    · rw [step_skip s e hfresh hoc (by omega)]
      exact List.Nodup.append hsn (List.nodup_singleton _)
        (by simp [List.disjoint_singleton]; exact hfresh.2)

theorem c7_witness :
    (step c4State c4Event).skiplist = c4State.skiplist ++ ["XYZ"] ∧
    ((step c4State c4Event).skiplist).count "XYZ" = 1 :=
  (c7_retry_and_skip_once c4Account c4State c4Event reach_c4
    ⟨by simp [c4State], by simp [c4State]⟩ (by decide)).2.1
    (by rw [mkInputs_c4, c1_osFinal])

/-- C8: in every reachable session state no ticker is a member of both
the bought list and the skip list. -/
theorem c8_disjoint (a : Account) (s : SessionState) (hs : Reachable a s)
    (t : String) : ¬(t ∈ s.boughtlist ∧ t ∈ s.skiplist) := by
  rintro ⟨hb, hsk⟩
  exact (reachable_invariant a s hs).2.2.2.1 t hb hsk

theorem c8_witness :
    ¬("XYZ" ∈ c4State.boughtlist ∧ "XYZ" ∈ c4State.skiplist) :=
  c8_disjoint c4Account c4State reach_c4 "XYZ"

lemma voteChar_vals (x : ℤ) (hx : x = -1 ∨ x = 0 ∨ x = 1) :
    decodeChar (voteChar x) = x ∧
    (voteChar x = 'A' ∨ voteChar x = 'B' ∨ voteChar x = 'C') := by
  rcases hx with rfl | rfl | rfl <;> exact ⟨by decide, by decide⟩

lemma decode_encode (l : List ℤ) (hl : ∀ x ∈ l, x = -1 ∨ x = 0 ∨ x = 1) :
    decode (encode l) = l := by
  induction l with
  | nil => rfl
  | cons x xs ih =>
    have hx := (voteChar_vals x (hl x (List.mem_cons_self x xs))).1
    have hxs := ih (fun y hy => hl y (List.mem_cons_of_mem x hy))
    show decodeChar (voteChar x) :: (xs.map voteChar).map decodeChar = x :: xs
    rw [hx]
    exact congrArg (x :: ·) hxs

lemma encode_chars (l : List ℤ) (hl : ∀ x ∈ l, x = -1 ∨ x = 0 ∨ x = 1) :
    ∀ c ∈ (encode l).data, c = 'A' ∨ c = 'B' ∨ c = 'C' := by
  intro c hc
  have hc' : c ∈ l.map voteChar := hc
  rcases List.mem_map.mp hc' with ⟨x, hx, rfl⟩
  exact (voteChar_vals x (hl x hx)).2

lemma encode_length (l : List ℤ) : (encode l).length = l.length := by
  show (l.map voteChar).length = l.length
  simp

/-- C9: the strategy id of a vote vector over -1, 0, 1 is the
eleven-character encoding in the fixed family order, each character drawn
from A, B, C with A = -1, B = 0, C = +1, and decoding it recovers the
vote vector. -/
theorem c9_encode_roundtrip (v : VoteVec)
    (hv : ∀ x ∈ voteList v, x = -1 ∨ x = 0 ∨ x = 1) :
    strategyId v = encode (voteList v) ∧
    (strategyId v).length = 11 ∧
    (∀ c ∈ (strategyId v).data, c = 'A' ∨ c = 'B' ∨ c = 'C') ∧
    decode (strategyId v) = voteList v := by
  have hid : strategyId v = encode (voteList v) := rfl
  refine ⟨hid, ?_, ?_, ?_⟩
  · rw [hid, encode_length]
    rfl
  · rw [hid]
    exact encode_chars (voteList v) hv
  · rw [hid]
    exact decode_encode (voteList v) hv

theorem c9_witness :
    (strategyId c9Votes).length = 11 ∧
    decode (strategyId c9Votes) = voteList c9Votes :=
  ⟨(c9_encode_roundtrip c9Votes (by decide)).2.1,
   (c9_encode_roundtrip c9Votes (by decide)).2.2.2⟩

/-- C10: in every reachable session state the cash figure equals buying
power over multiplier minus 25001 and the trade capital is one tenth of
it, both fixed at session start and never changed; every status row
records exactly these figures; and the account cash field plays no role
in the initial state. -/
theorem c10_cash_figures (a : Account) (s : SessionState)
    (hs : Reachable a s) :
    s.cash = a.buying_power / a.multiplier - 25001 ∧
    s.tradecapital = s.cash / 10 ∧
    (∀ p ∈ s.status, p.2.Cash = s.cash ∧
      p.2.TradeCapital = s.tradecapital) ∧
    (∀ a' : Account, a'.buying_power = a.buying_power →
      a'.multiplier = a.multiplier → initState a' = initState a) := by
  obtain ⟨hc, htc, -, -, hst⟩ := reachable_invariant a s hs
  refine ⟨hc, ?_, hst, ?_⟩
  · rw [htc, hc]
  · intro a' h1 h2
    simp [initState, h1, h2]

theorem c10_witness :
    (initState c4Account).cash =
      c4Account.buying_power / c4Account.multiplier - 25001 ∧
    (initState c4Account).tradecapital = (initState c4Account).cash / 10 :=
  ⟨(c10_cash_figures c4Account _ Reachable.init).1,
   (c10_cash_figures c4Account _ Reachable.init).2.1⟩

end Ouro
